import Mathlib

/-!
Verification development for the Rizon backend (Go): passwordless login
token lifecycle, session issuance, and idempotent feedback submission.

The Go source is shallowly embedded: Mongo collections become Lean lists,
timestamps become `Int` (Unix seconds), `bson.ObjectID` values become `Nat`
identifiers handed out by an insertion counter, and every handler becomes a
pure state-transition function.  Storage-level behaviour that matters for
the claims is modelled explicitly: `UpdateOne` updates the first matching
document, `FindOne` returns the first matching document in insertion order,
and the unique indexes created by `EnsureIndexes` make an insert fail with a
duplicate-key error when a document with the same indexed value exists.
External collaborators (HTTP decoding, the JWT HMAC itself, Resend email,
Slack) are abstracted to their observable effect: email delivery and the
fallible downstream steps of verification are driven by explicit
success/failure parameters, and the signed credential is modelled by the
claims payload it carries.
-/

namespace Rizon

/-- Storage error as surfaced by the Mongo driver on a unique-index
violation (`InsertOne` against an existing indexed value). -/
inductive StoreErr where
  | dupKey
deriving DecidableEq, Repr

/-- `models.AuthToken` from internal/models/auth_token.go (the `_id` field,
unused by any handler logic, is omitted). -/
structure AuthToken where
  email : String
  token : String
  expiresAt : Int
  isUsed : Bool
  createdAt : Int
deriving DecidableEq, Repr

/-- `AuthToken.IsExpired`: Go evaluates `time.Now().After(t.ExpiresAt)`,
which is a strict comparison `now > expiresAt`. -/
def AuthToken.isExpired (t : AuthToken) (now : Int) : Bool :=
  now > t.expiresAt

/-- `models.User` from internal/models/user.go, with `bson.ObjectID`
modelled as a `Nat` assigned at insertion time. -/
structure User where
  id : Nat
  email : String
  onboardingCompleted : Bool
  createdAt : Int
  updatedAt : Int
deriving DecidableEq, Repr

/-- `models.Feedback` from the feedback model file. -/
structure Feedback where
  id : Nat
  userId : Nat
  text : String
  rating : Int
  idempotencyKey : String
  createdAt : Int
deriving DecidableEq, Repr

/-- The JWT claims set built in `VerifyToken` (auth.go): `user_id`, `email`,
`exp`, `iat`.  The HMAC signature itself is outside the embedding; the
credential is identified with the claims it carries. -/
structure Credential where
  userId : Nat
  email : String
  exp : Int
  iat : Int
deriving DecidableEq, Repr

/-- The observable content of the Slack message published after a feedback
create (`formatSlackMessage` interpolates exactly these three values). -/
structure SlackMessage where
  userId : Nat
  text : String
  rating : Int
deriving DecidableEq, Repr

/-! ## Repositories -/

/-- `AuthTokenRepo.FindByToken`: `FindOne` on `{token: token}`; first match
in insertion order, `nil` when absent. -/
def findByToken (ts : List AuthToken) (tok : String) : Option AuthToken :=
  ts.find? (fun t => t.token == tok)

/-- `AuthTokenRepo.MarkUsed`: `UpdateOne` on `{token: token}` with
`$set {is_used: true}` — the filter does NOT include `is_used: false`, and
the caller never inspects the modified count.  `UpdateOne` touches the
first matching document. -/
def markUsed : List AuthToken → String → List AuthToken
  | [], _ => []
  | t :: ts, tok =>
      if t.token == tok then { t with isUsed := true } :: ts
      else t :: markUsed ts tok

/-- `AuthTokenRepo.CountRecentByEmail`: counts documents with this email and
`created_at >= now - duration` (`$gte` against `time.Now().Add(-duration)`). -/
def countRecentByEmail (ts : List AuthToken) (email : String) (now window : Int) : Nat :=
  (ts.filter (fun t => t.email == email && decide (now - window ≤ t.createdAt))).length

/-- `UserRepo.FindByEmail`: `FindOne` on `{email: email}`. -/
def findUserByEmail (us : List User) (email : String) : Option User :=
  us.find? (fun u => u.email == email)

/-- The users collection together with the insertion counter that stands in
for ObjectID generation. -/
structure UserStore where
  users : List User
  nextId : Nat
deriving DecidableEq, Repr

/-- The user record built by `UserRepo.Create` for `FindOrCreate`:
`OnboardingCompleted` is `false`, `CreatedAt` and `UpdatedAt` are both the
current time, and the identifier is the store's next insertion id. -/
def freshUser (s : UserStore) (email : String) (now : Int) : User :=
  { id := s.nextId, email := email, onboardingCompleted := false
    createdAt := now, updatedAt := now }

/-- `UserRepo.Create` (`InsertOne`) under the unique index on `email`
installed by `UserRepo.EnsureIndexes`: the insert is rejected with a
duplicate-key error when a user with this email already exists. -/
def userInsert (s : UserStore) (email : String) (now : Int) :
    Except StoreErr (UserStore × User) :=
  match findUserByEmail s.users email with
  | some _ => .error .dupKey
  | none =>
      let u := freshUser s email now
      .ok ({ users := s.users ++ [u], nextId := s.nextId + 1 }, u)

/-- `UserRepo.FindOrCreate`: look up by email; if absent, `Create` a user
with `OnboardingCompleted: false`.  A `Create` error (including a
duplicate-key rejection) is returned to the caller unchanged. -/
def findOrCreate (s : UserStore) (email : String) (now : Int) :
    Except StoreErr (UserStore × User) :=
  match findUserByEmail s.users email with
  | some u => .ok (s, u)
  | none => userInsert s email now

/-- `FeedbackRepo.FindByIdempotencyKey`: `FindOne` on
`{idempotency_key: key}`. -/
def findByIdempotencyKey (fs : List Feedback) (key : String) : Option Feedback :=
  fs.find? (fun f => f.idempotencyKey == key)

/-- The feedbacks collection plus its insertion counter and the list of
Slack messages published so far. -/
structure FeedbackState where
  feedbacks : List Feedback
  nextId : Nat
  published : List SlackMessage
deriving DecidableEq, Repr

/-- `FeedbackRepo.Create` (`InsertOne`) under the sparse unique index on
`idempotency_key` from `FeedbackRepo.EnsureIndexes`: rejected with a
duplicate-key error when a record with this key exists.  (Every record
created through the handler carries a non-empty key, so the sparseness of
the index never matters on reachable states.) -/
def feedbackInsert (st : FeedbackState) (userId : Nat) (text : String)
    (rating : Int) (key : String) (now : Int) :
    Except StoreErr (FeedbackState × Feedback) :=
  match findByIdempotencyKey st.feedbacks key with
  | some _ => .error .dupKey
  | none =>
      let fb : Feedback :=
        { id := st.nextId, userId := userId, text := text, rating := rating
          idempotencyKey := key, createdAt := now }
      .ok ({ st with feedbacks := st.feedbacks ++ [fb], nextId := st.nextId + 1 }, fb)

/-! ## Auth handler state and outcomes -/

/-- The persistent state touched by the auth handler: the auth_tokens
collection and the users collection. -/
structure ServerState where
  tokens : List AuthToken
  users : UserStore
deriving DecidableEq, Repr

/-- Outcome of `GET /auth/verify` (`VerifyToken` in auth.go). -/
inductive VerifyOutcome where
  | badRequest (msg : String)
  | unauthorized (msg : String)
  | internalError (msg : String)
  | ok (cred : Credential) (user : User)
deriving DecidableEq, Repr

/-- HTTP status written for each `VerifyToken` outcome. -/
def VerifyOutcome.status : VerifyOutcome → Nat
  | .badRequest _ => 400
  | .unauthorized _ => 401
  | .internalError _ => 500
  | .ok _ _ => 200

/-- Whether a verification outcome issued a session credential. -/
def VerifyOutcome.isOk : VerifyOutcome → Bool
  | .ok _ _ => true
  | _ => false

/-- Outcome of `POST /auth/request` (`RequestLogin` in auth.go). -/
inductive RequestOutcome where
  | badRequest (msg : String)
  | rateLimited (msg : String)
  | internalError (msg : String)
  | ok (msg : String)
deriving DecidableEq, Repr

/-- HTTP status written for each `RequestLogin` outcome. -/
def RequestOutcome.status : RequestOutcome → Nat
  | .badRequest _ => 400
  | .rateLimited _ => 429
  | .internalError _ => 500
  | .ok _ => 200

/-- Outcome of `POST /feedback` (`SubmitFeedback`). -/
inductive FeedbackOutcome where
  | badRequest (msg : String)
  | serverError (msg : String)
  | okExisting (fb : Feedback)
  | created (fb : Feedback)
deriving DecidableEq, Repr

/-- HTTP status written for each `SubmitFeedback` outcome. -/
def FeedbackOutcome.status : FeedbackOutcome → Nat
  | .badRequest _ => 400
  | .serverError _ => 500
  | .okExisting _ => 200
  | .created _ => 201

/-! ## POST /auth/request -/

/-- `RequestLogin` (auth.go).  `tokenValue` stands for the freshly generated
`uuid.New().String()`; `emailOk` is whether `sendLoginEmail` succeeds.  The
rate-limit window is 10 minutes = 600 s, the token expiry 15 minutes =
900 s.  The JSON-decode failure and the storage-unavailable 500 paths are
outside the model (no storage fault is injected here). -/
def requestLogin (st : ServerState) (email : String) (now : Int)
    (tokenValue : String) (emailOk : Bool) : RequestOutcome × ServerState :=
  if email == "" then (.badRequest "email is required", st)
  else if 5 ≤ countRecentByEmail st.tokens email now 600 then
    (.rateLimited "too many login requests, please try again later", st)
  else if emailOk then
    (.ok "login link sent to your email",
     { st with tokens := st.tokens ++
         [{ email := email, token := tokenValue, expiresAt := now + 900
            isUsed := false, createdAt := now }] })
  else
    (.ok "login link generated (email delivery may be delayed)",
     { st with tokens := st.tokens ++
         [{ email := email, token := tokenValue, expiresAt := now + 900
            isUsed := false, createdAt := now }] })

/-! ## GET /auth/verify -/

/-- The tail of `VerifyToken` after the `FindByToken` read: the expiry and
reuse checks run against the document `found` returned by that read, then
`MarkUsed`, `FindOrCreate` and JWT signing run against the current state.
`userResolveFails` injects a storage failure into `FindOrCreate`;
`signFails` injects a `SignedString` failure.  Factoring the handler at the
read/write boundary lets the same code describe both a lone request and two
racing requests. -/
def verifyStep2 (st : ServerState) (tokenValue : String)
    (found : Option AuthToken) (now : Int) (userResolveFails signFails : Bool) :
    VerifyOutcome × ServerState :=
  match found with
  | none => (.unauthorized "invalid token", st)
  | some tok =>
      if tok.isExpired now then (.unauthorized "token has expired", st)
      else if tok.isUsed then (.unauthorized "token has already been used", st)
      else if userResolveFails then
        (.internalError "internal server error",
         { st with tokens := markUsed st.tokens tokenValue })
      else
        match findOrCreate st.users tok.email now with
        | .error _ =>
            (.internalError "internal server error",
             { st with tokens := markUsed st.tokens tokenValue })
        | .ok (us, user) =>
            if signFails then
              (.internalError "internal server error",
               { tokens := markUsed st.tokens tokenValue, users := us })
            else
              (.ok { userId := user.id, email := user.email
                     exp := now + 30 * 24 * 3600, iat := now } user,
               { tokens := markUsed st.tokens tokenValue, users := us })

/-- `VerifyToken` (auth.go): missing-token check, `FindByToken`, then the
validation / consume / resolve / sign pipeline. -/
def verifyToken (st : ServerState) (tokenValue : String) (now : Int)
    (userResolveFails signFails : Bool) : VerifyOutcome × ServerState :=
  if tokenValue == "" then (.badRequest "token is required", st)
  else verifyStep2 st tokenValue (findByToken st.tokens tokenValue) now
    userResolveFails signFails

/-- Two concurrent `VerifyToken` requests for the same token value,
interleaved at the storage boundary the way the spec's race analysis
describes: both `FindByToken` reads complete before either request runs its
checks and `MarkUsed` write.  Request A then runs to completion, followed by
request B operating on its stale snapshot.  Returns A's outcome, B's
outcome, and the final state. -/
def verifyRace (st : ServerState) (tokenValue : String) (now : Int) :
    VerifyOutcome × VerifyOutcome × ServerState :=
  let snapA := findByToken st.tokens tokenValue
  let snapB := findByToken st.tokens tokenValue
  let (ra, st1) := verifyStep2 st tokenValue snapA now false false
  let (rb, st2) := verifyStep2 st1 tokenValue snapB now false false
  (ra, rb, st2)

/-! ## POST /feedback -/

/-- The tail of `SubmitFeedback` after the `FindByIdempotencyKey` read:
an existing record is echoed back with no write and no Slack publish;
otherwise `Create` runs against the current collection (where the unique
index arbitrates), a duplicate-key rejection surfaces as the generic
500 "failed to submit feedback", and a successful create publishes the
Slack message. -/
def submitStep2 (st : FeedbackState) (found : Option Feedback) (userId : Nat)
    (text : String) (rating : Int) (key : String) (now : Int) :
    FeedbackOutcome × FeedbackState :=
  match found with
  | some existing => (.okExisting existing, st)
  | none =>
      match feedbackInsert st userId text rating key now with
      | .error _ => (.serverError "failed to submit feedback", st)
      | .ok (st1, fb) =>
          (.created fb,
           { st1 with
             published := st1.published ++ [{ userId := userId, text := text, rating := rating }] })

/-- `SubmitFeedback` (feedback handler): validation of `text` and
`idempotency_key`, the idempotency lookup, then `submitStep2`.  The
authentication middleware and ObjectID hex parsing are outside the model
(`userId` arrives already resolved). -/
def submitFeedback (st : FeedbackState) (userId : Nat) (text : String)
    (rating : Int) (key : String) (now : Int) : FeedbackOutcome × FeedbackState :=
  if text == "" then (.badRequest "feedback text is required", st)
  else if key == "" then (.badRequest "idempotency_key is required", st)
  else submitStep2 st (findByIdempotencyKey st.feedbacks key) userId text rating key now

/-- Two concurrent `SubmitFeedback` requests with the same idempotency key,
interleaved so that both `FindByIdempotencyKey` lookups complete before
either request's create step; A then runs to completion, followed by B. -/
def submitRace (st : FeedbackState) (userId : Nat) (text : String)
    (rating : Int) (key : String) (now : Int) :
    FeedbackOutcome × FeedbackOutcome × FeedbackState :=
  let snapA := findByIdempotencyKey st.feedbacks key
  let snapB := findByIdempotencyKey st.feedbacks key
  let (ra, st1) := submitStep2 st snapA userId text rating key now
  let (rb, st2) := submitStep2 st1 snapB userId text rating key now
  (ra, rb, st2)

/-- Two concurrent `FindOrCreate` calls for the same email, interleaved so
that both `FindByEmail` lookups complete before either `Create`; A runs to
completion first.  Returns A's result, B's result, and the final store. -/
def findOrCreateRace (s : UserStore) (email : String) (now : Int) :
    Except StoreErr User × Except StoreErr User × UserStore :=
  let snapA := findUserByEmail s.users email
  let snapB := findUserByEmail s.users email
  let (ra, s1) : Except StoreErr User × UserStore :=
    match snapA with
    | some u => (.ok u, s)
    | none =>
        match userInsert s email now with
        | .error e => (.error e, s)
        | .ok (s', u) => (.ok u, s')
  let (rb, s2) : Except StoreErr User × UserStore :=
    match snapB with
    | some u => (.ok u, s1)
    | none =>
        match userInsert s1 email now with
        | .error e => (.error e, s1)
        | .ok (s', u) => (.ok u, s')
  (ra, rb, s2)

/-! ## Concrete fixtures used by witnesses and counterexamples -/

/-- A valid unused login token: expiry 100, created at 0. -/
def exToken : AuthToken :=
  { email := "a@ex.com", token := "tk", expiresAt := 100, isUsed := false, createdAt := 0 }

/-- A server state holding just `exToken` and no users. -/
def exState : ServerState :=
  { tokens := [exToken], users := { users := [], nextId := 1 } }

/-- The user created by redeeming `exToken` at time 0 in `exState`. -/
def exUser : User :=
  { id := 1, email := "a@ex.com", onboardingCompleted := false, createdAt := 0, updatedAt := 0 }

/-- The credential issued by redeeming `exToken` at time 0 in `exState`. -/
def exCred : Credential :=
  { userId := 1, email := "a@ex.com", exp := 2592000, iat := 0 }

/-- The state after successfully redeeming `exToken` at time 0 in `exState`. -/
def exState1 : ServerState :=
  { tokens := [{ exToken with isUsed := true }]
    users := { users := [exUser], nextId := 2 } }

/-- An empty feedback store. -/
def exFb : FeedbackState := { feedbacks := [], nextId := 1, published := [] }

/-- An empty user store. -/
def exUserStore : UserStore := { users := [], nextId := 0 }

/-- Five tokens issued to `a@ex.com` at time 0 (a full rate-limit window). -/
def exFive : List AuthToken :=
  [{ email := "a@ex.com", token := "t1", expiresAt := 900, isUsed := false, createdAt := 0 },
   { email := "a@ex.com", token := "t2", expiresAt := 900, isUsed := false, createdAt := 0 },
   { email := "a@ex.com", token := "t3", expiresAt := 900, isUsed := false, createdAt := 0 },
   { email := "a@ex.com", token := "t4", expiresAt := 900, isUsed := false, createdAt := 0 },
   { email := "a@ex.com", token := "t5", expiresAt := 900, isUsed := false, createdAt := 0 }]

/-- A server state whose token collection is `exFive`. -/
def exLimitState : ServerState :=
  { tokens := exFive, users := { users := [], nextId := 0 } }

/-! ## Helper lemmas -/

/-- `MarkUsed` commutes with `FindByToken` for the same token value: the
looked-up document is the old one with `is_used` set. -/
theorem findByToken_markUsed (ts : List AuthToken) (tv : String) :
    findByToken (markUsed ts tv) tv =
      (findByToken ts tv).map (fun t => { t with isUsed := true }) := by
  induction ts with
  | nil => rfl
  | cons t ts ih =>
      by_cases h : (t.token == tv) = true
      · simp [markUsed, findByToken, List.find?, h]
      · simp only [markUsed, findByToken, List.find?, h, if_neg]
        simpa [findByToken] using ih

/-- A lone (unraced) `FindOrCreate` call never fails in the model: the
duplicate-key rejection requires an insert against an email that a
concurrent writer added between the lookup and the create. -/
theorem findOrCreate_ok (s : UserStore) (email : String) (now : Int) :
    ∃ us u, findOrCreate s email now = .ok (us, u) := by
  unfold findOrCreate userInsert
  cases h : findUserByEmail s.users email
  · simp [h]
  · simp [h]

/-- Inversion for a successful `VerifyToken` run: the token value was
non-empty, the lookup found an unexpired unused token, and the resulting
token collection is exactly the old one after `MarkUsed`. -/
theorem verifyToken_ok_inv (st : ServerState) (tv : String) (now : Int)
    (urf sf : Bool) (c : Credential) (u : User) (st1 : ServerState)
    (h : verifyToken st tv now urf sf = (.ok c u, st1)) :
    (tv == "") = false ∧ ∃ tok, findByToken st.tokens tv = some tok ∧
      tok.isExpired now = false ∧ tok.isUsed = false ∧
      st1.tokens = markUsed st.tokens tv := by
  unfold verifyToken at h
  split at h
  · simp at h
  next hne =>
    refine ⟨by simpa using hne, ?_⟩
    unfold verifyStep2 at h
    split at h
    · simp at h
    next tok heq =>
      refine ⟨tok, heq, ?_⟩
      split at h
      · simp at h
      next hexp =>
        refine ⟨by simpa using hexp, ?_⟩
        split at h
        · simp at h
        next hused =>
          refine ⟨by simpa using hused, ?_⟩
          split at h
          · simp at h
          next hurf =>
            rcases hfc : findOrCreate st.users tok.email now with e | ⟨us, user⟩ <;>
              simp only [hfc] at h
            · simp at h
            · by_cases hsf : sf = true
              · simp [hsf] at h
              · simp only [if_neg hsf] at h
                injection h with h1 h2
                rw [← h2]

/-- The record inserted by a successful `SubmitFeedback` create, and the
state it leaves behind: the claim's key was non-empty, the idempotency
lookup found nothing, the record carries the submitted fields, and exactly
one Slack message was published. -/
theorem submitFeedback_created_inv (st : FeedbackState) (uid : Nat)
    (text : String) (rating : Int) (key : String) (now : Int)
    (fb : Feedback) (st1 : FeedbackState)
    (h : submitFeedback st uid text rating key now = (.created fb, st1)) :
    (key == "") = false ∧
    findByIdempotencyKey st.feedbacks key = none ∧
    fb = { id := st.nextId, userId := uid, text := text, rating := rating
           idempotencyKey := key, createdAt := now } ∧
    st1 = { feedbacks := st.feedbacks ++ [fb], nextId := st.nextId + 1
            published := st.published ++
              [{ userId := uid, text := text, rating := rating }] } := by
  unfold submitFeedback at h
  split at h
  · simp at h
  next htext =>
    split at h
    · simp at h
    next hkey =>
      refine ⟨by simpa using hkey, ?_⟩
      unfold submitStep2 at h
      split at h
      · simp at h
      next hnone =>
        refine ⟨hnone, ?_⟩
        unfold feedbackInsert at h
        simp only [hnone] at h
        injection h with h1 h2
        injection h1 with h1
        exact ⟨h1.symm, by rw [← h2, h1]⟩

/-! ## Claim theorems -/

/-- Claim C1 (amended): after a successful redemption of a token, a second
sequential redemption of the same token value never succeeds and never
issues a second credential; it fails with AlreadyUsed
(401 "token has already been used") whenever the token has not yet expired
at the time of the second call (after expiry the code reports Expired
instead, because the expiry check precedes the reuse check). -/
theorem second_redemption_never_succeeds (st : ServerState) (tv : String)
    (now1 now2 : Int) (urf1 sf1 urf2 sf2 : Bool) (c : Credential) (u : User)
    (st1 : ServerState)
    (h : verifyToken st tv now1 urf1 sf1 = (.ok c u, st1)) :
    (verifyToken st1 tv now2 urf2 sf2).1.isOk = false ∧
    (∀ tok, findByToken st.tokens tv = some tok → now2 ≤ tok.expiresAt →
      (verifyToken st1 tv now2 urf2 sf2).1 =
        .unauthorized "token has already been used") := by
  obtain ⟨hne, tok, hfind, hexp, hused, htokens⟩ :=
    verifyToken_ok_inv st tv now1 urf1 sf1 c u st1 h
  have hfind1 : findByToken st1.tokens tv = some { tok with isUsed := true } := by
    rw [htokens, findByToken_markUsed, hfind]; rfl
  by_cases hE : tok.expiresAt < now2
  · refine ⟨?_, ?_⟩
    · simp [verifyToken, hne, verifyStep2, hfind1, AuthToken.isExpired, hE,
        VerifyOutcome.isOk]
    · intro t ht hle
      rw [hfind] at ht
      injection ht with ht'
      rw [← ht'] at hle
      omega
  · have hE2 : ({ tok with isUsed := true } : AuthToken).isExpired now2 = false := by
      simp [AuthToken.isExpired]
      omega
    refine ⟨?_, fun t ht hle => ?_⟩
    · simp [verifyToken, hne, verifyStep2, hfind1, hE2, VerifyOutcome.isOk]
    · simp [verifyToken, hne, verifyStep2, hfind1, hE2]

/-- Witness for C1: in `exState`, redeeming "tk" at time 0 succeeds, and the
second redemption at time 50 (before expiry) is rejected as already used. -/
theorem second_redemption_never_succeeds_witness :
    (verifyToken exState "tk" 0 false false = (.ok exCred exUser, exState1)) ∧
    ((verifyToken exState1 "tk" 50 false false).1.isOk = false ∧
     (∀ tok, findByToken exState.tokens "tk" = some tok → 50 ≤ tok.expiresAt →
       (verifyToken exState1 "tk" 50 false false).1 =
         .unauthorized "token has already been used")) :=
  ⟨by decide,
   second_redemption_never_succeeds exState "tk" 0 50 false false false false
     exCred exUser exState1 (by decide)⟩

/-- Counterexample for C1 as stated: after the successful redemption at
time 0, redeeming the same value at time 200 (past the 100 expiry) is
rejected as "token has expired", not as "token has already been used". -/
theorem second_redemption_after_expiry_not_already_used :
    (verifyToken exState "tk" 0 false false).1 = .ok exCred exUser ∧
    (verifyToken exState "tk" 0 false false).2 = exState1 ∧
    (verifyToken exState1 "tk" 200 false false).1 =
      .unauthorized "token has expired" := by decide

/-- Claim C2: the code violates exactly-one-success. `FindByToken` is a
separate read and `MarkUsed` is unconditional (its filter has no
`is_used: false` clause and its modified count is never checked), so in the
interleaving where both requests read the token before either writes, both
redemptions of the same valid token succeed and both issue credentials. -/
theorem race_both_redemptions_succeed :
    (verifyRace exState "tk" 0).1.isOk = true ∧
    (verifyRace exState "tk" 0).2.1.isOk = true := by decide

/-- Claim C3: the code violates it. When the concurrent duplicate passes
the lookup and the storage layer rejects the second insert on the unique
idempotency-key index, `SubmitFeedback` propagates the rejection as the
generic 500 "failed to submit feedback" instead of converting it into the
200 already-exists response (only one record is stored, though). -/
theorem race_duplicate_feedback_returns_generic_error :
    (submitRace exFb 1 "hi" 3 "k" 10).2.1 =
      .serverError "failed to submit feedback" ∧
    ((submitRace exFb 1 "hi" 3 "k" 10).2.1).status = 500 ∧
    (submitRace exFb 1 "hi" 3 "k" 10).2.2.feedbacks.length = 1 := by decide

/-- Claim C4 (amended): redemption is rejected as Expired exactly when the
current time is strictly past the token's expiry (`time.Now().After` is
strict), so the boundary instant `now == expiry` still redeems; an
unexpired token is never rejected as Expired. -/
theorem expired_rejection_iff_strictly_past_expiry
    (st : ServerState) (tv : String) (now : Int) (urf sf : Bool)
    (hne : (tv == "") = false) :
    (verifyToken st tv now urf sf).1 = .unauthorized "token has expired" ↔
      ∃ tok, findByToken st.tokens tv = some tok ∧ tok.expiresAt < now := by
  cases hfind : findByToken st.tokens tv with
  | none =>
      simp [verifyToken, hne, verifyStep2, hfind]
  | some tok =>
      by_cases hE : tok.expiresAt < now
      · simp [verifyToken, hne, verifyStep2, hfind, AuthToken.isExpired, hE]
      · obtain ⟨us, u, hfc⟩ := findOrCreate_ok st.users tok.email now
        by_cases hU : tok.isUsed = true
        · simp [verifyToken, hne, verifyStep2, hfind, AuthToken.isExpired, hE, hU]
        · cases urf <;> cases sf <;>
            simp [verifyToken, hne, verifyStep2, hfind, AuthToken.isExpired,
              hE, hU, hfc]

/-- Witness for C4: at time 101 the lookup of "tk" in `exState` (expiry
100) is rejected as expired, matching the strict characterisation. -/
theorem expired_rejection_iff_strictly_past_expiry_witness :
    (("tk" == "") = false) ∧
    ((verifyToken exState "tk" 101 false false).1 =
        .unauthorized "token has expired" ↔
      ∃ tok, findByToken exState.tokens "tk" = some tok ∧
        tok.expiresAt < 101) :=
  ⟨by decide,
   expired_rejection_iff_strictly_past_expiry exState "tk" 101 false false
     (by decide)⟩

/-- Counterexample for C4 as stated: at the boundary instant
`now == expiry` (100), the claim requires an Expired rejection, but the
token still redeems with a 200 and a credential. -/
theorem boundary_instant_token_still_redeems :
    (verifyToken exState "tk" 100 false false).1.isOk = true ∧
    (verifyToken exState "tk" 100 false false).1.status = 200 := by decide

/-- Claim C5: the login rate limiter rejects with RateLimited (429) exactly
when the count of tokens created for the email with
`created_at >= now - 10 minutes`, computed at call time, is at least 5; a
rejected request leaves the store untouched (the check is read-only), and
otherwise a token record is appended. -/
theorem rate_limit_threshold (st : ServerState) (email : String) (now : Int)
    (tv : String) (emailOk : Bool) (hne : (email == "") = false) :
    ((requestLogin st email now tv emailOk).1 =
        .rateLimited "too many login requests, please try again later" ↔
      5 ≤ countRecentByEmail st.tokens email now 600) ∧
    (5 ≤ countRecentByEmail st.tokens email now 600 →
      (requestLogin st email now tv emailOk).2 = st) ∧
    (countRecentByEmail st.tokens email now 600 < 5 →
      (requestLogin st email now tv emailOk).1.status = 200 ∧
      (requestLogin st email now tv emailOk).2.tokens = st.tokens ++
        [{ email := email, token := tv, expiresAt := now + 900
           isUsed := false, createdAt := now }]) := by
  by_cases hc : 5 ≤ countRecentByEmail st.tokens email now 600
  · simp [requestLogin, hne, hc]
  · cases emailOk <;>
      simp [requestLogin, hne, hc, RequestOutcome.status]

/-- Witness for C5: with five tokens for `a@ex.com` created at time 0, a
request at time 300 is rate-limited and the state is unchanged. -/
theorem rate_limit_threshold_witness :
    (("a@ex.com" == "") = false) ∧
    (((requestLogin exLimitState "a@ex.com" 300 "t6" true).1 =
        .rateLimited "too many login requests, please try again later" ↔
      5 ≤ countRecentByEmail exLimitState.tokens "a@ex.com" 300 600) ∧
    (5 ≤ countRecentByEmail exLimitState.tokens "a@ex.com" 300 600 →
      (requestLogin exLimitState "a@ex.com" 300 "t6" true).2 = exLimitState) ∧
    (countRecentByEmail exLimitState.tokens "a@ex.com" 300 600 < 5 →
      (requestLogin exLimitState "a@ex.com" 300 "t6" true).1.status = 200 ∧
      (requestLogin exLimitState "a@ex.com" 300 "t6" true).2.tokens =
        exLimitState.tokens ++
        [{ email := "a@ex.com", token := "t6", expiresAt := 300 + 900
           isUsed := false, createdAt := 300 }])) :=
  ⟨by decide,
   rate_limit_threshold exLimitState "a@ex.com" 300 "t6" true (by decide)⟩

/-- Claim C6: the code violates it. When a `FindOrCreate` for a never-seen
email loses the creation race, the store's duplicate-key rejection on the
unique email index is returned to the caller as an error instead of being
converted into a successful lookup of the winner's record. -/
theorem losing_user_create_propagates_error :
    (findOrCreateRace exUserStore "new@ex.com" 5).1 =
      .ok { id := 0, email := "new@ex.com", onboardingCompleted := false
            createdAt := 5, updatedAt := 5 } ∧
    (findOrCreateRace exUserStore "new@ex.com" 5).2.1 = .error .dupKey :=
  ⟨rfl, rfl⟩

/-- Claim C7 (amended): sequential feedback submission is idempotent per
key: after a call with a given idempotency key creates a record, every
later sequential call with the same key returns that identical stored
record with a 200, performs no write, and publishes no further Slack
message, and the creating call published exactly one message.  (Under the
concurrent duplicate race the losing replay instead surfaces the generic
error of claim C3 rather than the stored record.) -/
theorem sequential_replay_returns_first_record (st : FeedbackState)
    (uid uid' : Nat) (text text' : String) (rating rating' : Int)
    (key : String) (now now' : Int) (fb : Feedback) (st1 : FeedbackState)
    (h : submitFeedback st uid text rating key now = (.created fb, st1))
    (htext' : (text' == "") = false) :
    submitFeedback st1 uid' text' rating' key now' = (.okExisting fb, st1) ∧
    st1.published = st.published ++
      [{ userId := uid, text := text, rating := rating }] := by
  obtain ⟨hkey, hnone, hfb, hst1⟩ :=
    submitFeedback_created_inv st uid text rating key now fb st1 h
  have hfind : findByIdempotencyKey st1.feedbacks key = some fb := by
    rw [hst1]
    unfold findByIdempotencyKey at hnone ⊢
    simp [List.find?_append, hnone, List.find?, hfb]
  refine ⟨?_, by rw [hst1]⟩
  simp [submitFeedback, htext', hkey, submitStep2, hfind]

/-- Witness for C7: submitting key "k1" on an empty store creates a record
and publishes once; resubmitting the same key echoes the stored record and
leaves the state unchanged. -/
theorem sequential_replay_returns_first_record_witness :
    (submitFeedback exFb 7 "great" 5 "k1" 10 =
      (.created { id := 1, userId := 7, text := "great", rating := 5
                  idempotencyKey := "k1", createdAt := 10 },
       { feedbacks := [{ id := 1, userId := 7, text := "great", rating := 5
                         idempotencyKey := "k1", createdAt := 10 }]
         nextId := 2
         published := [{ userId := 7, text := "great", rating := 5 }] })) ∧
    (("again" == "") = false) ∧
    (submitFeedback
        { feedbacks := [{ id := 1, userId := 7, text := "great", rating := 5
                          idempotencyKey := "k1", createdAt := 10 }]
          nextId := 2
          published := [{ userId := 7, text := "great", rating := 5 }] }
        7 "again" 4 "k1" 20 =
      (.okExisting { id := 1, userId := 7, text := "great", rating := 5
                     idempotencyKey := "k1", createdAt := 10 },
       { feedbacks := [{ id := 1, userId := 7, text := "great", rating := 5
                         idempotencyKey := "k1", createdAt := 10 }]
         nextId := 2
         published := [{ userId := 7, text := "great", rating := 5 }] }) ∧
     ({ feedbacks := [{ id := 1, userId := 7, text := "great", rating := 5
                        idempotencyKey := "k1", createdAt := 10 }]
        nextId := 2
        published := [{ userId := 7, text := "great", rating := 5 }]
        : FeedbackState }).published =
       exFb.published ++ [{ userId := 7, text := "great", rating := 5 }]) :=
  ⟨by decide, by decide,
   sequential_replay_returns_first_record exFb 7 7 "great" "again" 5 4 "k1"
     10 20 _ _ (by decide) (by decide)⟩

/-- Counterexample for C7 as stated ("regardless of concurrency"): under
the concurrent duplicate race the winning call creates the record and
publishes once, but the replay returns the generic 500 error rather than
the identical stored record. -/
theorem concurrent_replay_returns_error_not_record :
    (submitRace exFb 7 "great" 5 "k1" 10).1 =
      .created { id := 1, userId := 7, text := "great", rating := 5
                 idempotencyKey := "k1", createdAt := 10 } ∧
    (submitRace exFb 7 "great" 5 "k1" 10).2.1 =
      .serverError "failed to submit feedback" ∧
    (submitRace exFb 7 "great" 5 "k1" 10).2.2.feedbacks.length = 1 ∧
    (submitRace exFb 7 "great" 5 "k1" 10).2.2.published.length = 1 := by
  decide

/-- Claim C8: once past validation and the rate-limit gate (so the token
record is created), a failing email delivery is absorbed: the endpoint
still answers 200 with the "may be delayed" note, and the token is in the
store. -/
theorem email_failure_yields_success_response (st : ServerState)
    (email : String) (now : Int) (tv : String)
    (hne : (email == "") = false)
    (hc : countRecentByEmail st.tokens email now 600 < 5) :
    (requestLogin st email now tv false).1 =
      .ok "login link generated (email delivery may be delayed)" ∧
    (requestLogin st email now tv false).1.status = 200 ∧
    (requestLogin st email now tv false).2.tokens = st.tokens ++
      [{ email := email, token := tv, expiresAt := now + 900
         isUsed := false, createdAt := now }] := by
  have hc' : ¬ 5 ≤ countRecentByEmail st.tokens email now 600 := by omega
  simp [requestLogin, hne, hc', RequestOutcome.status]

/-- Witness for C8: a login request for `a@ex.com` on an empty store with
failing email delivery still returns 200 and stores the token. -/
theorem email_failure_yields_success_response_witness :
    (("a@ex.com" == "") = false) ∧
    countRecentByEmail ([] : List AuthToken) "a@ex.com" 0 600 < 5 ∧
    ((requestLogin { tokens := [], users := exUserStore } "a@ex.com" 0 "v1"
        false).1 =
      .ok "login link generated (email delivery may be delayed)" ∧
    (requestLogin { tokens := [], users := exUserStore } "a@ex.com" 0 "v1"
        false).1.status = 200 ∧
    (requestLogin { tokens := [], users := exUserStore } "a@ex.com" 0 "v1"
        false).2.tokens = ([] : List AuthToken) ++
      [{ email := "a@ex.com", token := "v1", expiresAt := 0 + 900
         isUsed := false, createdAt := 0 }]) :=
  ⟨by decide, by decide,
   email_failure_yields_success_response
     { tokens := [], users := exUserStore } "a@ex.com" 0 "v1" (by decide)
     (by decide)⟩

/-- Claim C9: redeeming a valid token for a never-seen email creates a new
user with onboarding-completed false (appended to the user store) and
returns a credential carrying that user's identifier, the email, the
issued-at instant, and an expiry 30 days (2592000 seconds) after
issuance. -/
theorem fresh_email_redemption_creates_user_and_credential
    (st : ServerState) (tv : String) (now : Int) (tok : AuthToken)
    (hne : (tv == "") = false)
    (hfind : findByToken st.tokens tv = some tok)
    (hexp : tok.isExpired now = false)
    (hused : tok.isUsed = false)
    (hnew : findUserByEmail st.users.users tok.email = none) :
    verifyToken st tv now false false =
      (.ok { userId := (freshUser st.users tok.email now).id
             email := tok.email, exp := now + 30 * 24 * 3600, iat := now }
        (freshUser st.users tok.email now),
       { tokens := markUsed st.tokens tv
         users := { users := st.users.users ++ [freshUser st.users tok.email now]
                    nextId := st.users.nextId + 1 } }) ∧
    (freshUser st.users tok.email now).onboardingCompleted = false := by
  refine ⟨?_, rfl⟩
  simp [verifyToken, hne, verifyStep2, hfind, hexp, hused, findOrCreate,
    userInsert, hnew, freshUser]

/-- Witness for C9: redeeming "tk" for the never-seen `a@ex.com` in
`exState` creates user 1 with onboarding false and issues the 30-day
credential. -/
theorem fresh_email_redemption_witness :
    (("tk" == "") = false) ∧
    findByToken exState.tokens "tk" = some exToken ∧
    exToken.isExpired 0 = false ∧
    exToken.isUsed = false ∧
    findUserByEmail exState.users.users exToken.email = none ∧
    (verifyToken exState "tk" 0 false false =
      (.ok { userId := (freshUser exState.users exToken.email 0).id
             email := exToken.email, exp := 0 + 30 * 24 * 3600, iat := 0 }
        (freshUser exState.users exToken.email 0),
       { tokens := markUsed exState.tokens "tk"
         users := { users := exState.users.users ++
                      [freshUser exState.users exToken.email 0]
                    nextId := exState.users.nextId + 1 } }) ∧
    (freshUser exState.users exToken.email 0).onboardingCompleted = false) :=
  ⟨by decide, by decide, by decide, by decide, by decide,
   fresh_email_redemption_creates_user_and_credential exState "tk" 0 exToken
     (by decide) (by decide) (by decide) (by decide) (by decide)⟩

/-- Claim C10: the token is marked used before user resolution and signing,
so when either downstream step fails after `MarkUsed` succeeded, the
request returns the internal error, no session is issued, and the token
remains permanently consumed (`is_used = true` in the store, with no
rollback). -/
theorem downstream_failure_leaves_token_consumed
    (st : ServerState) (tv : String) (now : Int) (urf sf : Bool)
    (tok : AuthToken)
    (hne : (tv == "") = false)
    (hfind : findByToken st.tokens tv = some tok)
    (hexp : tok.isExpired now = false)
    (hused : tok.isUsed = false)
    (hfail : (urf || sf) = true) :
    (verifyToken st tv now urf sf).1 = .internalError "internal server error" ∧
    (verifyToken st tv now urf sf).1.isOk = false ∧
    findByToken (verifyToken st tv now urf sf).2.tokens tv =
      some { tok with isUsed := true } := by
  have htk : findByToken (markUsed st.tokens tv) tv =
      some { tok with isUsed := true } := by
    rw [findByToken_markUsed, hfind]; rfl
  cases urf with
  | true =>
      simp [verifyToken, hne, verifyStep2, hfind, hexp, hused,
        VerifyOutcome.isOk, htk]
  | false =>
      have hsf : sf = true := by simpa using hfail
      obtain ⟨us, u, hfc⟩ := findOrCreate_ok st.users tok.email now
      subst hsf
      simp [verifyToken, hne, verifyStep2, hfind, hexp, hused, hfc,
        VerifyOutcome.isOk, htk]

/-- Witness for C10: with user resolution failing after `MarkUsed`, the
request for "tk" in `exState` returns the internal error and the stored
token is left consumed. -/
theorem downstream_failure_leaves_token_consumed_witness :
    (("tk" == "") = false) ∧
    findByToken exState.tokens "tk" = some exToken ∧
    exToken.isExpired 0 = false ∧
    exToken.isUsed = false ∧
    ((true || false) = true) ∧
    ((verifyToken exState "tk" 0 true false).1 =
      .internalError "internal server error" ∧
    (verifyToken exState "tk" 0 true false).1.isOk = false ∧
    findByToken (verifyToken exState "tk" 0 true false).2.tokens "tk" =
      some { exToken with isUsed := true }) :=
  ⟨by decide, by decide, by decide, by decide, by decide,
   downstream_failure_leaves_token_consumed exState "tk" 0 true false exToken
     (by decide) (by decide) (by decide) (by decide) (by decide)⟩

end Rizon
